import Mathlib

/-!
Shallow embedding of the `simplecert` package (simplecert.go): the
configuration record, its validation (`CheckConfig`), the exported
`Default` configuration, and the startup entry point `Init` together with
`loadStoredCert`.  External calls (filesystem, ACME network traffic, the
certificate reloader constructor) are modelled by an oracle environment
`Env` holding the outcome of each call, and every externally visible
action of a run is recorded in an `Effect` trace.
-/

namespace Simplecert

/-- File name constants from the source (simplecert.go lines 19-24). -/
def logFileName : String := "simplecert.log"

def certResourceFileName : String := "CertResource.json"

def certFileName : String := "cert.pem"

def keyFileName : String := "key.pem"

/-- Key type constants (config file, lines 242-248). -/
def EC256 : String := "P256"

def EC384 : String := "P384"

def RSA2048 : String := "2048"

def RSA4096 : String := "4096"

def RSA8192 : String := "8192"

/-- The distinct error values declared in the source (lines 253-261). -/
inductive SCErr where
  | noDirectoryURL
  | noMail
  | noDomains
  | noChallenge
  | noCacheDir
  | noRenewBefore
  | noCheckInterval
  | noCacheDirPerm
  | unsupportedKeyType
deriving DecidableEq, Repr

/-- The Go error message carried by each error value (lines 253-261). -/
def scErrMsg : SCErr → String
  | .noDirectoryURL => "simplecert: no directory url specified in config"
  | .noMail => "simplecert: no SSLEmail in config in config"
  | .noDomains => "simplecert: no domains specified in config"
  | .noChallenge => "simplecert: no challenge method specified in config"
  | .noCacheDir => "simplecert: no cache directory specified in config"
  | .noRenewBefore => "simplecert: no renew before value set in config"
  | .noCheckInterval => "simplecert: no check interval set in config"
  | .noCacheDirPerm => "simplecert: no cache directory permission specified in config"
  | .unsupportedKeyType => "simplecert: unsupported key type specified in config"

/-- The `Config` struct (lines 293-344).  Go `int` and `time.Duration`
become `Int`, `os.FileMode` becomes `Nat`; the three handler function
fields carry only the information the embedded code inspects, namely
whether the handler is non-nil. -/
structure Config where
  RenewBefore : Int
  CheckInterval : Int
  SSLEmail : String
  DirectoryURL : String
  HTTPAddress : String
  TLSAddress : String
  CacheDirPerm : Nat
  Domains : List String
  DNSServers : List String
  CacheDir : String
  DNSProvider : String
  Local : Bool
  UpdateHosts : Bool
  KeyType : String
  WillRenewCertificate : Bool
  DidRenewCertificate : Bool
  FailedToRenewCertificate : Bool
deriving DecidableEq, Repr

/-- Membership in the `supportedKeyTypes` map (lines 263-269). -/
def supportedKeyTypes (kt : String) : Bool :=
  kt == EC256 || kt == EC384 || kt == RSA2048 || kt == RSA4096 || kt == RSA8192

/-- `CheckConfig` (lines 347-394), the sequence of validation checks in
source order.  The `RenewBefore = 0` check returns `.noCacheDir`, exactly
as the source does at line 368, even though `errNoRenewBefore` is declared
at line 258. -/
def CheckConfig (c : Config) : Option SCErr :=
  if c.CacheDir = "" then some .noCacheDir
  else if c.Domains.length = 0 then some .noDomains
  else if c.Local = false ∧ c.SSLEmail = "" then some .noMail
  else if c.DirectoryURL = "" then some .noDirectoryURL
  else if c.DNSProvider = "" ∧ c.HTTPAddress = "" ∧ c.TLSAddress = "" then some .noChallenge
  else if c.RenewBefore = 0 then some .noCacheDir
  else if c.CheckInterval = 0 then some .noCheckInterval
  else if c.CacheDirPerm = 0 then some .noCacheDirPerm
  else if supportedKeyTypes c.KeyType = false then some .unsupportedKeyType
  else none

/-- The advisory warnings `CheckConfig` logs (lines 383-391); control
only reaches them after every check above has passed. -/
def checkConfigWarnings (c : Config) : List String :=
  match CheckConfig c with
  | some _ => []
  | none =>
    (if c.WillRenewCertificate = false ∧ (c.HTTPAddress ≠ "" ∨ c.TLSAddress ≠ "") then
      ["[WARNING] no WillRenewCertificate handler specified, to handle graceful server shutdown!"]
    else []) ++
    (if c.DidRenewCertificate = false ∧ (c.HTTPAddress ≠ "" ∨ c.TLSAddress ≠ "") then
      ["[WARNING] no DidRenewCertificate handler specified, to bring the service back up after renewing the certificate!"]
    else []) ++
    (if c.FailedToRenewCertificate = false then
      ["[WARNING] no FailedToRenewCertificate handler specified! Simplecert will fatal on errors!"]
    else [])

/-- `time.Hour` in nanoseconds, the unit of Go `time.Duration`. -/
def timeHour : Int := 3600000000000

/-- The exported `Default` configuration (lines 273-290); the handler
fields are absent from the Go literal and therefore nil. -/
def Default : Config where
  RenewBefore := 30 * 24
  CheckInterval := 2 * 24 * timeHour
  SSLEmail := ""
  DirectoryURL := "https://acme-v02.api.letsencrypt.org/directory"
  HTTPAddress := ":80"
  TLSAddress := ":443"
  CacheDirPerm := 0o700
  Domains := []
  CacheDir := "letsencrypt"
  DNSProvider := ""
  Local := false
  UpdateHosts := true
  DNSServers := []
  KeyType := RSA2048
  WillRenewCertificate := false
  DidRenewCertificate := false
  FailedToRenewCertificate := false

/-- Externally visible actions a run of `Init` performs, in order. -/
inductive Effect where
  | ensureCacheDir (path : String)
  | openLogFile (path : String)
  | setLogOutput
  | createLocalCert (certPath keyPath : String)
  | updateHosts
  | getUser
  | createClient
  | acmeObtain (domains : List String)
  | saveCertToDisk (dir : String)
  | readFile (path : String)
  | unmarshalCR
  | newCertReloader (certPath keyPath : String)
  | invokeFailedToRenewHook (e : String)
  | startRenewalRoutine
deriving DecidableEq, Repr

/-- Oracle for the outcome of each external call a run can make: the
logfile open, the cache probes `certCached` and `domainsChanged`, the
ACME user/client/obtain calls, disk writes and reads, the
`NewCertReloader` constructor (a successful reloader is abstracted to a
`Nat` handle) and the startup `renew` check. -/
structure Env where
  logFileOpen : Except String Unit
  certCached : Bool
  domainsChanged : Bool
  getUser : Except String Unit
  createClient : Except String Unit
  obtain : Except String String
  saveCert : Except String Unit
  readCertResource : Except String Unit
  unmarshal : Except String Unit
  reloader : Except String Nat
  renew : Option String

/-- `filepath.Join` restricted to the clean, non-empty components this
code joins. -/
def joinPath (a b : String) : String := a ++ "/" ++ b

/-- `loadStoredCert` (lines 178-225): read `CertResource.json` from the
global config's cache directory, unmarshal it, build the reloader, run
the startup renewal check — on failure invoke the
`FailedToRenewCertificate` handler and keep going, or abort when none is
configured — then start the renewal routine and return the reloader.
Returns the Go `(reloader, error)` pair as an `Except`, together with the
effect trace of this call. -/
def loadStoredCert (env : Env) (cfg : Config) (certFilePath keyFilePath : String) :
    Except String Nat × List Effect :=
  let effs0 := [Effect.readFile (joinPath cfg.CacheDir certResourceFileName)]
  match env.readCertResource with
  | .error e =>
    (.error ("simplecert: failed to read CertResource.json from disk: " ++ e), effs0)
  | .ok _ =>
    let effs1 := effs0 ++ [Effect.unmarshalCR]
    match env.unmarshal with
    | .error e =>
      (.error ("simplecert: failed to unmarshal certificate resource: " ++ e), effs1)
    | .ok _ =>
      let effs2 := effs1 ++ [Effect.newCertReloader certFilePath keyFilePath]
      match env.renew with
      | some errRenew =>
        if cfg.FailedToRenewCertificate then
          (env.reloader,
            effs2 ++ [Effect.invokeFailedToRenewHook errRenew, Effect.startRenewalRoutine])
        else
          (.error ("simplecert: failed to renew cached cert on startup and no failedToRenewCert handler is configured: " ++ errRenew),
            effs2)
      | none => (env.reloader, effs2 ++ [Effect.startRenewalRoutine])

/-- The observable outcome of a run of `Init`: the returned
`(reloader, error)` pair, the caller's `Config` after the call (the
package-global `c` aliases it, so mutations of `c` show up here), the
package-global `c` and `local` variables, and the effect trace. -/
structure InitResult where
  result : Except String Nat
  cfgAfter : Config
  globalC : Option Config
  localFlag : Bool
  effects : List Effect
deriving Repr

/-- `Init` (lines 36-176).  Validation gates everything; then the global
`c` is set to the caller's pointer, the cache dir is ensured, the logfile
opened, and either the local-mode branch, the cached-certificate load, or
the obtain-new-certificate path (also reached from a cached certificate
whose domains changed) runs.  Package globals start at their zero values
`c = nil`, `local = false`. -/
def Init (env : Env) (cfg : Config) : InitResult :=
  match CheckConfig cfg with
  | some e =>
    { result := .error (scErrMsg e), cfgAfter := cfg, globalC := none,
      localFlag := false, effects := [] }
  | none =>
    let effs0 := [Effect.ensureCacheDir cfg.CacheDir,
                  Effect.openLogFile (joinPath cfg.CacheDir logFileName)]
    match env.logFileOpen with
    | .error e =>
      { result := .error ("simplecert: failed to create logfile: " ++ e),
        cfgAfter := cfg, globalC := some cfg, localFlag := false, effects := effs0 }
    | .ok _ =>
      let effs1 := effs0 ++ [Effect.setLogOutput]
      if cfg.Local then
        -- c.CacheDir = filepath.Join(c.CacheDir, "local") mutates the
        -- caller's Config through the aliasing global pointer
        let cfg2 := { cfg with CacheDir := joinPath cfg.CacheDir "local" }
        let certFilePath := joinPath cfg2.CacheDir certFileName
        let keyFilePath := joinPath cfg2.CacheDir keyFileName
        let effs2 := effs1 ++ [Effect.ensureCacheDir cfg2.CacheDir]
        let effs3 :=
          if env.certCached then
            if env.domainsChanged then
              effs2 ++ [Effect.createLocalCert certFilePath keyFilePath]
            else effs2
          else effs2 ++ [Effect.createLocalCert certFilePath keyFilePath]
        let effs4 := if cfg2.UpdateHosts then effs3 ++ [Effect.updateHosts] else effs3
        { result := env.reloader, cfgAfter := cfg2, globalC := some cfg2,
          localFlag := true,
          effects := effs4 ++ [Effect.newCertReloader certFilePath keyFilePath] }
      else
        let certFilePath := joinPath cfg.CacheDir certFileName
        let keyFilePath := joinPath cfg.CacheDir keyFileName
        if env.certCached && !env.domainsChanged then
          let r := loadStoredCert env cfg certFilePath keyFilePath
          { result := r.1, cfgAfter := cfg, globalC := some cfg,
            localFlag := false, effects := effs1 ++ r.2 }
        else
          -- the obtainNewCert label; certDomainsChanged is true exactly
          -- when a cached certificate's domains changed
          let certDomainsChanged := env.certCached && env.domainsChanged
          let effsU := effs1 ++ [Effect.getUser]
          match env.getUser with
          | .error e =>
            { result := .error ("simplecert: failed to get ACME user: " ++ e),
              cfgAfter := cfg, globalC := some cfg, localFlag := false, effects := effsU }
          | .ok _ =>
            let effsC := effsU ++ [Effect.createClient]
            match env.createClient with
            | .error e =>
              { result := .error ("simplecert: failed to create lego.Client: " ++ e),
                cfgAfter := cfg, globalC := some cfg, localFlag := false, effects := effsC }
            | .ok _ =>
              let effsO := effsC ++ [Effect.acmeObtain cfg.Domains]
              match env.obtain with
              | .error e =>
                if certDomainsChanged then
                  let r := loadStoredCert env cfg certFilePath keyFilePath
                  { result := r.1, cfgAfter := cfg, globalC := some cfg,
                    localFlag := false, effects := effsO ++ r.2 }
                else
                  { result := .error ("simplecert: failed to obtain cert: " ++ e),
                    cfgAfter := cfg, globalC := some cfg, localFlag := false,
                    effects := effsO }
              | .ok _domain =>
                let effsS := effsO ++ [Effect.saveCertToDisk cfg.CacheDir]
                match env.saveCert with
                | .error e =>
                  { result := .error ("simplecert: failed to write cert to disk: " ++ e),
                    cfgAfter := cfg, globalC := some cfg, localFlag := false,
                    effects := effsS }
                | .ok _ =>
                  { result := env.reloader, cfgAfter := cfg, globalC := some cfg,
                    localFlag := false,
                    effects := effsS ++ [Effect.startRenewalRoutine,
                                         Effect.newCertReloader certFilePath keyFilePath] }

/-! Concrete fixtures used to instantiate the theorems below. -/

/-- A configuration satisfying every `CheckConfig` invariant, with no
lifecycle handler configured. -/
def validConfig : Config where
  RenewBefore := 30 * 24
  CheckInterval := 2 * 24 * timeHour
  SSLEmail := "admin@example.com"
  DirectoryURL := "https://acme-v02.api.letsencrypt.org/directory"
  HTTPAddress := ":80"
  TLSAddress := ":443"
  CacheDirPerm := 0o700
  Domains := ["example.com"]
  CacheDir := "letsencrypt"
  DNSProvider := ""
  Local := false
  UpdateHosts := true
  DNSServers := []
  KeyType := RSA2048
  WillRenewCertificate := false
  DidRenewCertificate := false
  FailedToRenewCertificate := false

/-- `validConfig` with the `FailedToRenewCertificate` handler configured. -/
def hookedConfig : Config := { validConfig with FailedToRenewCertificate := true }

/-- `validConfig` running in local mode. -/
def localConfig : Config := { validConfig with Local := true }

/-- An environment in which every external call succeeds and nothing is
cached. -/
def baseEnv : Env where
  logFileOpen := .ok ()
  certCached := false
  domainsChanged := false
  getUser := .ok ()
  createClient := .ok ()
  obtain := .ok "example.com"
  saveCert := .ok ()
  readCertResource := .ok ()
  unmarshal := .ok ()
  reloader := .ok 7
  renew := none

/-! Theorems. -/

/-- `supportedKeyTypes` holds exactly on the five declared key type
constants. -/
theorem supportedKeyTypes_iff (kt : String) :
    supportedKeyTypes kt = true ↔
      (kt = EC256 ∨ kt = EC384 ∨ kt = RSA2048 ∨ kt = RSA4096 ∨ kt = RSA8192) := by
  simp [supportedKeyTypes, or_assoc]

/-- C1: a configuration satisfying every invariant before the
renew-before check, but whose renew-before window is zero, is rejected by
`CheckConfig` with `noCacheDir` — not with `noRenewBefore` as the spec's
ordered list prescribes: the source's `RenewBefore == 0` branch returns
`errNoCacheDir`. -/
theorem checkConfig_renewBefore_zero_wrong_error :
    CheckConfig { validConfig with RenewBefore := 0 } = some SCErr.noCacheDir ∧
    SCErr.noCacheDir ≠ SCErr.noRenewBefore ∧
    ({ validConfig with RenewBefore := 0 } : Config).CacheDir ≠ "" := by
  decide

/-- C8: once every earlier check passes, `CheckConfig` reports
`unsupportedKeyType` exactly when the key type is none of
P256, P384, 2048, 4096, 8192. -/
theorem checkConfig_unsupportedKeyType_iff (c : Config)
    (h1 : c.CacheDir ≠ "") (h2 : c.Domains.length ≠ 0)
    (h3 : ¬(c.Local = false ∧ c.SSLEmail = "")) (h4 : c.DirectoryURL ≠ "")
    (h5 : ¬(c.DNSProvider = "" ∧ c.HTTPAddress = "" ∧ c.TLSAddress = ""))
    (h6 : c.RenewBefore ≠ 0) (h7 : c.CheckInterval ≠ 0) (h8 : c.CacheDirPerm ≠ 0) :
    CheckConfig c = some SCErr.unsupportedKeyType ↔
      ¬(c.KeyType = EC256 ∨ c.KeyType = EC384 ∨ c.KeyType = RSA2048 ∨
        c.KeyType = RSA4096 ∨ c.KeyType = RSA8192) := by
  rw [← supportedKeyTypes_iff]
  by_cases hk : supportedKeyTypes c.KeyType = true
  · simp [CheckConfig, h1, h2, h3, h4, h5, h6, h7, h8, hk]
  · simp only [Bool.not_eq_true] at hk
    simp [CheckConfig, h1, h2, h3, h4, h5, h6, h7, h8, hk]

/-- C8 witness: an RSA-1024 key type is rejected. -/
theorem checkConfig_unsupportedKeyType_iff_witness :
    CheckConfig { validConfig with KeyType := "1024" } = some SCErr.unsupportedKeyType ↔
      ¬(({ validConfig with KeyType := "1024" } : Config).KeyType = EC256 ∨
        ({ validConfig with KeyType := "1024" } : Config).KeyType = EC384 ∨
        ({ validConfig with KeyType := "1024" } : Config).KeyType = RSA2048 ∨
        ({ validConfig with KeyType := "1024" } : Config).KeyType = RSA4096 ∨
        ({ validConfig with KeyType := "1024" } : Config).KeyType = RSA8192) :=
  checkConfig_unsupportedKeyType_iff { validConfig with KeyType := "1024" }
    (by decide) (by decide) (by decide) (by decide) (by decide) (by decide)
    (by decide) (by decide)

/-- C9: a configuration satisfying every invariant is accepted by
`CheckConfig` whatever the three lifecycle hook fields are; an unset
failure hook only yields the advisory warning. -/
theorem checkConfig_valid_ignores_hooks (c : Config)
    (h1 : c.CacheDir ≠ "") (h2 : c.Domains.length ≠ 0)
    (h3 : ¬(c.Local = false ∧ c.SSLEmail = "")) (h4 : c.DirectoryURL ≠ "")
    (h5 : ¬(c.DNSProvider = "" ∧ c.HTTPAddress = "" ∧ c.TLSAddress = ""))
    (h6 : c.RenewBefore ≠ 0) (h7 : c.CheckInterval ≠ 0) (h8 : c.CacheDirPerm ≠ 0)
    (h9 : supportedKeyTypes c.KeyType = true) :
    CheckConfig c = none ∧
    (c.FailedToRenewCertificate = false →
      "[WARNING] no FailedToRenewCertificate handler specified! Simplecert will fatal on errors!"
        ∈ checkConfigWarnings c) := by
  have hcc : CheckConfig c = none := by
    simp [CheckConfig, h1, h2, h3, h4, h5, h6, h7, h8, h9]
  refine ⟨hcc, fun hf => ?_⟩
  simp [checkConfigWarnings, hcc, hf]

/-- C9 witness: `validConfig` has no hook configured and still validates. -/
theorem checkConfig_valid_ignores_hooks_witness :
    CheckConfig validConfig = none ∧
    (validConfig.FailedToRenewCertificate = false →
      "[WARNING] no FailedToRenewCertificate handler specified! Simplecert will fatal on errors!"
        ∈ checkConfigWarnings validConfig) :=
  checkConfig_valid_ignores_hooks validConfig (by decide) (by decide) (by decide)
    (by decide) (by decide) (by decide) (by decide) (by decide) (by decide)

/-- C10: the exported `Default` configuration does not validate:
`CheckConfig` rejects it with `noDomains`, its domain list being empty
(and its contact mail empty as well, though the domain check fires
first). -/
theorem checkConfig_default_noDomains :
    CheckConfig Default = some SCErr.noDomains ∧
    Default.Domains = [] ∧ Default.SSLEmail = "" := by
  decide

/-- C2: when the startup renewal check of a freshly loaded cached
certificate fails, `loadStoredCert` with a configured
`FailedToRenewCertificate` hook invokes the hook exactly once with the
renewal error and still returns the reloader built from the cached
files; without the hook it returns the fatal error, never invoking the
hook. -/
theorem loadStoredCert_renew_failure (env : Env) (cfg : Config)
    (cp kp : String) (e : String) (r : Nat)
    (hread : env.readCertResource = .ok ()) (hum : env.unmarshal = .ok ())
    (hrenew : env.renew = some e) (hrel : env.reloader = .ok r) :
    (cfg.FailedToRenewCertificate = true →
      (loadStoredCert env cfg cp kp).1 = .ok r ∧
      ((loadStoredCert env cfg cp kp).2.count (Effect.invokeFailedToRenewHook e)) = 1) ∧
    (cfg.FailedToRenewCertificate = false →
      (loadStoredCert env cfg cp kp).1 =
        .error ("simplecert: failed to renew cached cert on startup and no failedToRenewCert handler is configured: " ++ e) ∧
      ((loadStoredCert env cfg cp kp).2.count (Effect.invokeFailedToRenewHook e)) = 0) := by
  constructor <;> intro h <;>
    simp [loadStoredCert, hread, hum, hrenew, hrel, h, List.count_cons, List.count_nil]

/-- C2 witness: the hooked and the hookless configuration, on a renewal
failure at startup. -/
theorem loadStoredCert_renew_failure_witness :
    ((hookedConfig.FailedToRenewCertificate = true →
      (loadStoredCert { baseEnv with renew := some "rfail" } hookedConfig
          "letsencrypt/cert.pem" "letsencrypt/key.pem").1 = .ok 7 ∧
      ((loadStoredCert { baseEnv with renew := some "rfail" } hookedConfig
          "letsencrypt/cert.pem" "letsencrypt/key.pem").2.count
        (Effect.invokeFailedToRenewHook "rfail")) = 1) ∧
    (hookedConfig.FailedToRenewCertificate = false →
      (loadStoredCert { baseEnv with renew := some "rfail" } hookedConfig
          "letsencrypt/cert.pem" "letsencrypt/key.pem").1 =
        .error ("simplecert: failed to renew cached cert on startup and no failedToRenewCert handler is configured: " ++ "rfail") ∧
      ((loadStoredCert { baseEnv with renew := some "rfail" } hookedConfig
          "letsencrypt/cert.pem" "letsencrypt/key.pem").2.count
        (Effect.invokeFailedToRenewHook "rfail")) = 0)) :=
  loadStoredCert_renew_failure { baseEnv with renew := some "rfail" } hookedConfig
    "letsencrypt/cert.pem" "letsencrypt/key.pem" "rfail" 7 rfl rfl rfl rfl

/-- C3: with a cached certificate whose domains changed, a failing ACME
obtain call does not make `Init` fail: it reads the previously cached
certificate resource back from disk and returns the reloader built from
the old cached files. -/
theorem init_changed_domains_obtain_failure_falls_back
    (env : Env) (cfg : Config) (e : String) (r : Nat)
    (hcfg : CheckConfig cfg = none) (hlocal : cfg.Local = false)
    (hlog : env.logFileOpen = .ok ()) (hcached : env.certCached = true)
    (hdc : env.domainsChanged = true) (hu : env.getUser = .ok ())
    (hcl : env.createClient = .ok ()) (hob : env.obtain = .error e)
    (hread : env.readCertResource = .ok ()) (hum : env.unmarshal = .ok ())
    (hrenew : env.renew = none) (hrel : env.reloader = .ok r) :
    (Init env cfg).result = .ok r ∧
    Effect.readFile (joinPath cfg.CacheDir certResourceFileName) ∈ (Init env cfg).effects := by
  simp [Init, loadStoredCert, hcfg, hlocal, hlog, hcached, hdc, hu, hcl, hob,
    hread, hum, hrenew, hrel]

/-- C3 witness. -/
theorem init_changed_domains_obtain_failure_falls_back_witness :
    (Init { baseEnv with certCached := true, domainsChanged := true, obtain := .error "boom" }
        validConfig).result = .ok 7 ∧
    Effect.readFile (joinPath validConfig.CacheDir certResourceFileName) ∈
      (Init { baseEnv with certCached := true, domainsChanged := true, obtain := .error "boom" }
        validConfig).effects :=
  init_changed_domains_obtain_failure_falls_back
    { baseEnv with certCached := true, domainsChanged := true, obtain := .error "boom" }
    validConfig "boom" 7 (by decide) rfl rfl rfl rfl rfl rfl rfl rfl rfl rfl rfl

/-- C4: with a cached certificate whose domains changed, `Init` does not
load the cached certificate but obtains a new one for the requested
domains — whatever the startup renewal oracle would have said — and on
success returns the reloader without ever reading the cached resource
from disk. -/
theorem init_changed_domains_reacquires (env : Env) (cfg : Config) (d : String)
    (hcfg : CheckConfig cfg = none) (hlocal : cfg.Local = false)
    (hlog : env.logFileOpen = .ok ()) (hcached : env.certCached = true)
    (hdc : env.domainsChanged = true) (hu : env.getUser = .ok ())
    (hcl : env.createClient = .ok ()) (hob : env.obtain = .ok d)
    (hsave : env.saveCert = .ok ()) :
    (Init env cfg).result = env.reloader ∧
    Effect.acmeObtain cfg.Domains ∈ (Init env cfg).effects ∧
    (∀ p, Effect.readFile p ∉ (Init env cfg).effects) := by
  simp [Init, hcfg, hlocal, hlog, hcached, hdc, hu, hcl, hob, hsave]

/-- C4 witness. -/
theorem init_changed_domains_reacquires_witness :
    (Init { baseEnv with certCached := true, domainsChanged := true } validConfig).result =
      ({ baseEnv with certCached := true, domainsChanged := true } : Env).reloader ∧
    Effect.acmeObtain validConfig.Domains ∈
      (Init { baseEnv with certCached := true, domainsChanged := true } validConfig).effects ∧
    (∀ p, Effect.readFile p ∉
      (Init { baseEnv with certCached := true, domainsChanged := true } validConfig).effects) :=
  init_changed_domains_reacquires { baseEnv with certCached := true, domainsChanged := true }
    validConfig "example.com" (by decide) rfl rfl rfl rfl rfl rfl rfl rfl

/-- C5: with nothing cached, a failing ACME obtain call is fatal: `Init`
returns the obtain error and no reloader. -/
theorem init_initial_obtain_failure_fatal (env : Env) (cfg : Config) (e : String)
    (hcfg : CheckConfig cfg = none) (hlocal : cfg.Local = false)
    (hlog : env.logFileOpen = .ok ()) (hcached : env.certCached = false)
    (hu : env.getUser = .ok ()) (hcl : env.createClient = .ok ())
    (hob : env.obtain = .error e) :
    (Init env cfg).result = .error ("simplecert: failed to obtain cert: " ++ e) := by
  simp [Init, hcfg, hlocal, hlog, hcached, hu, hcl, hob]

/-- C5 witness. -/
theorem init_initial_obtain_failure_fatal_witness :
    (Init { baseEnv with obtain := .error "boom" } validConfig).result =
      .error ("simplecert: failed to obtain cert: " ++ "boom") :=
  init_initial_obtain_failure_fatal { baseEnv with obtain := .error "boom" } validConfig
    "boom" (by decide) rfl rfl rfl rfl rfl rfl

/-- C6: a configuration rejected by `CheckConfig` makes `Init` return
exactly that validation error with an empty effect trace — no directory
creation, no logfile, no disk write, no ACME call — and without touching
the caller's config or the global state. -/
theorem init_invalid_config_no_io (env : Env) (cfg : Config) (e : SCErr)
    (h : CheckConfig cfg = some e) :
    Init env cfg = { result := .error (scErrMsg e), cfgAfter := cfg,
                     globalC := none, localFlag := false, effects := [] } := by
  simp [Init, h]

/-- C6 witness: a config with an empty cache directory. -/
theorem init_invalid_config_no_io_witness :
    Init baseEnv { validConfig with CacheDir := "" } =
      { result := .error (scErrMsg SCErr.noCacheDir),
        cfgAfter := { validConfig with CacheDir := "" },
        globalC := none, localFlag := false, effects := [] } :=
  init_invalid_config_no_io baseEnv { validConfig with CacheDir := "" }
    SCErr.noCacheDir (by decide)

/-- C7 counterexample: in local mode, `Init` mutates the caller's
`CacheDir` (through the aliasing global pointer) and publishes the
configuration in the package-global `c`. -/
theorem init_local_mode_mutates_config :
    (Init baseEnv localConfig).cfgAfter.CacheDir ≠ localConfig.CacheDir ∧
    (Init baseEnv localConfig).globalC ≠ none := by
  decide

/-- C7 amended: after successful validation `Init` always publishes the
configuration through the package-global `c` (aliasing the caller's
`Config`); in non-local mode every field of the caller's config is left
unchanged, while in local mode `CacheDir` is rewritten to its `local`
subdirectory. -/
theorem init_publishes_global_c (env : Env) (cfg : Config)
    (hcfg : CheckConfig cfg = none) (hlog : env.logFileOpen = .ok ()) :
    (cfg.Local = false →
      (Init env cfg).cfgAfter = cfg ∧ (Init env cfg).globalC = some cfg) ∧
    (cfg.Local = true →
      (Init env cfg).cfgAfter = { cfg with CacheDir := joinPath cfg.CacheDir "local" } ∧
      (Init env cfg).globalC = some { cfg with CacheDir := joinPath cfg.CacheDir "local" }) := by
  constructor <;> intro h
  · cases hcc : env.certCached <;> cases hdc : env.domainsChanged <;>
      cases hgu : env.getUser <;> cases hcl : env.createClient <;>
      cases hob : env.obtain <;> cases hsc : env.saveCert <;>
      simp [Init, hcfg, hlog, h, hcc, hdc, hgu, hcl, hob, hsc]
  · simp [Init, hcfg, hlog, h]

/-- C7 amended witness: local mode at a concrete config. -/
theorem init_publishes_global_c_witness :
    ((localConfig.Local = false →
      (Init baseEnv localConfig).cfgAfter = localConfig ∧
      (Init baseEnv localConfig).globalC = some localConfig) ∧
    (localConfig.Local = true →
      (Init baseEnv localConfig).cfgAfter =
        { localConfig with CacheDir := joinPath localConfig.CacheDir "local" } ∧
      (Init baseEnv localConfig).globalC =
        some { localConfig with CacheDir := joinPath localConfig.CacheDir "local" })) :=
  init_publishes_global_c baseEnv localConfig (by decide) rfl

end Simplecert
